import Mathlib

/-!
Verification of the Advent-of-Code workspace manager
(`main.py`, `src/template.py`, `src/runner.py`, `src/aoc_cli.py`).

The filesystem is modelled as an association list from paths (lists of
components, relative to the project root) to file contents.  Directory
creation (`mkdir(parents=True, exist_ok=True)`) is not modelled: paths in
the model always address whole files, and creating a parent directory has
no observable effect on any file content.
-/

namespace Aoc

/-- A path relative to the project root, as a list of components. -/
abbrev FilePath := List String

/-- The filesystem: an association list from paths to file contents.
The first matching entry wins, so prepending an entry overwrites. -/
abbrev FS := List (FilePath × String)

/-- Content of the file at `p`, or `none` when no such file exists
(models `Path.read_text`, with `none` standing for `FileNotFoundError`). -/
def FS.read : FS → FilePath → Option String
  | [], _ => none
  | (q, s) :: t, p => if p = q then some s else FS.read t p

/-- Models `Path.exists()`. -/
def FS.contains (fs : FS) (p : FilePath) : Bool :=
  (fs.read p).isSome

/-- Models `Path.write_text`: the new entry shadows any previous one. -/
def FS.write (fs : FS) (p : FilePath) (s : String) : FS :=
  (p, s) :: fs

/-- Models `Path.touch()`: creates an empty file when absent, leaves the
content of an existing file unchanged. -/
def FS.touch (fs : FS) (p : FilePath) : FS :=
  if fs.contains p then fs else fs.write p ""

/-- The names of the files lying directly in directory `dir`
(models a non-recursive directory scan such as `Path.glob`). -/
def FS.listDir (fs : FS) (dir : FilePath) : List String :=
  ((fs.map Prod.fst).dedup).filterMap fun p =>
    if p.dropLast = dir then p.getLast? else none

/-- Models the Python f-string `f"{day:02d}"`: zero-pad to width 2; the
sign counts toward the width, so negative values render as `str(day)`. -/
def dayPadded (day : Int) : String :=
  if 0 ≤ day ∧ day < 10 then "0" ++ toString day else toString day

/-- A partition: `none` is the unpartitioned root, `some y` the year `y`
(`year : int | None` throughout the Python sources). -/
abbrev Partition := Option Int

/-- `get_solutions_dir` (template.py): `src/solutions` for the root,
`<year>/solutions` for a year partition. -/
def solutionsDirPath : Partition → FilePath
  | none => ["src", "solutions"]
  | some y => [toString y, "solutions"]

/-- `get_tests_dir` (template.py). -/
def testsDirPath : Partition → FilePath
  | none => ["tests"]
  | some y => [toString y, "tests"]

/-- `get_aoc_data_dir` (aoc_cli.py). -/
def dataDirPath : Partition → FilePath
  | none => ["data"]
  | some y => [toString y, "data"]

/-- The solution file `solutions/day<DD>.py` (runner.py, template.py). -/
def solutionFilePath (year : Partition) (day : Int) : FilePath :=
  solutionsDirPath year ++ ["day" ++ dayPadded day ++ ".py"]

/-- The test file `tests/test_day<DD>.py` (runner.py, template.py). -/
def testFilePath (year : Partition) (day : Int) : FilePath :=
  testsDirPath year ++ ["test_day" ++ dayPadded day ++ ".py"]

/-- The input file `data/inputs/<DD>.txt` (aoc_cli.py, template.py). -/
def inputFilePath (year : Partition) (day : Int) : FilePath :=
  dataDirPath year ++ ["inputs", dayPadded day ++ ".txt"]

/-- The example file `data/examples/<DD>.txt` (aoc_cli.py, template.py). -/
def exampleFilePath (year : Partition) (day : Int) : FilePath :=
  dataDirPath year ++ ["examples", dayPadded day ++ ".txt"]

/-- The puzzle file `data/puzzles/<DD>.md` (aoc_cli.py, template.py). -/
def puzzleFilePath (year : Partition) (day : Int) : FilePath :=
  dataDirPath year ++ ["puzzles", dayPadded day ++ ".md"]

/-- The per-partition pytest bootstrap `tests/conftest.py` (template.py). -/
def conftestFilePath (year : Int) : FilePath :=
  [toString year, "tests", "conftest.py"]

/-- `solutions/__init__.py` for a year partition (template.py). -/
def initSolutionsFilePath (year : Int) : FilePath :=
  [toString year, "solutions", "__init__.py"]

/-- `tests/__init__.py` for a year partition (template.py). -/
def initTestsFilePath (year : Int) : FilePath :=
  [toString year, "tests", "__init__.py"]

/-- The configuration file `.aoc-cli.json` at the workspace root.  The
document is modelled as a key-value list with integer values (the spec
calls it "a simple key-value document with at least a `year` integer
field"); JSON parsing itself is outside the model. -/
inductive ConfigFile
  | absent
  | present (doc : List (String × Int))

/-- `load_config` (template.py): `open(config_path)` raises
`FileNotFoundError` when the file is absent; otherwise the parsed
document is returned. -/
def load_config : ConfigFile → Except String (List (String × Int))
  | .absent => .error "FileNotFoundError"
  | .present doc => .ok doc

/-- `config.get("year", 2025)` (template.py line 50, main.py line 23). -/
def yearOf (doc : List (String × Int)) : Int :=
  (doc.lookup "year").getD 2025

/-- The bytes of the `conftest.py` written by `scaffold_day`
(template.py lines 94-125). -/
def conftestContent : String :=
  "\"\"\"Pytest configuration for year folder.\"\"\"\n\nimport re\nimport sys\nfrom pathlib import Path\n\nimport pytest\n\nfrom src.aoc_cli import read_example\n\n# Add year solutions to path so imports work\nyear_dir = Path(__file__).parent.parent\nsys.path.insert(0, str(year_dir))\n\n\n@pytest.fixture\ndef example(request):\n    \"\"\"\n    Load example input automatically from data/examples/{day}.txt.\n\n    Extracts the day number from the test file name (e.g., test_day01.py -> 01)\n    and loads the corresponding example file from the year-specific data dir.\n    \"\"\"\n    test_file = Path(request.fspath).name  # e.g., \"test_day01.py\"\n    match = re.search(r\"day(\\d+)\", test_file)\n    if not match:\n        raise ValueError(f\"Could not extract day number from {test_file}\")\n\n    day = int(match.group(1))\n    year_dir_obj = Path(__file__).parent.parent\n    return read_example(day, int(year_dir_obj.name))\n"

/-- The bytes of the generated test file (template.py lines 136-193;
the f-string with `{day_padded}`, `{day}` and `{year}` substituted). -/
def testFileContent (year : Int) (day : Int) : String :=
  "\"\"\"Tests for Day " ++ dayPadded day ++ ".\"\"\"\n\nimport sys\nfrom pathlib import Path\n\nimport pytest\n\n# Add year solutions to path so imports work\nsys.path.insert(0, str(Path(__file__).parent.parent))\n\nfrom solutions.day"
    ++ dayPadded day ++ " import parse_input, part_one, part_two\n\n\ndef test_parse_input(example):\n    \"\"\"Test input parsing.\"\"\"\n    data = parse_input(example)\n    assert data is not None\n\n\ndef test_part_one(example):\n    \"\"\"Test part one with example data.\"\"\"\n    data = parse_input(example)\n    result = part_one(data)\n    assert result == 0  # Update with expected value\n\n\ndef test_part_two(example):\n    \"\"\"Test part two with example data.\"\"\"\n    data = parse_input(example)\n    result = part_two(data)\n    assert result == 0  # Update with expected value\n\n\n@pytest.mark.benchmark\ndef test_benchmark_part_one(benchmark):\n    \"\"\"Benchmark part one.\"\"\"\n    from src.aoc_cli import read_input\n\n    try:\n        input_text = read_input("
    ++ toString day ++ ", " ++ toString year ++ ")\n        data = parse_input(input_text)\n        benchmark(part_one, data)\n    except FileNotFoundError:\n        pytest.skip(\"Input file not found\")\n\n\n@pytest.mark.benchmark\ndef test_benchmark_part_two(benchmark):\n    \"\"\"Benchmark part two.\"\"\"\n    from src.aoc_cli import read_input\n\n    try:\n        input_text = read_input("
    ++ toString day ++ ", " ++ toString year ++ ")\n        data = parse_input(input_text)\n        benchmark(part_two, data)\n    except FileNotFoundError:\n        pytest.skip(\"Input file not found\")\n"

/-- Modelled from the spec: the solution-file template
`src/solutions/template.txt` is not among the given sources.  The spec
describes it as "a parametrized text blueprint for a solution file, keyed
by three substitution slots (year, day, zero-padded day)"; this function
is `template.format(year=year, day=day, day_padded=day_padded)`
(template.py lines 129-132) applied to that blueprint. -/
def templateFormat (year : Int) (day : Int) : String :=
  "solution:year=" ++ toString year ++ ":day=" ++ toString day
    ++ ":day_padded=" ++ dayPadded day

/-- Outcome of the external aoc-cli download collaborator when scaffold
invokes `download_input` then `download_puzzle` (template.py lines 72-78).
On success both target files are written (aoc-cli runs with
`--overwrite`); on failure an exception is raised after the tool has made
an arbitrary partial write `partialEffect` to the filesystem. -/
inductive DownloadOutcome
  | ok (inputText puzzleText : String)
  | fails (partialEffect : FS → FS) (msg : String)

/-- The filesystem effect of the download step of `scaffold_day`. -/
def applyDownload (year day : Int) (dl : DownloadOutcome) (fs : FS) : FS :=
  match dl with
  | .ok ti tp =>
      (fs.write (inputFilePath (some year) day) ti).write
        (puzzleFilePath (some year) day) tp
  | .fails e _ => e fs

/-- Errors `scaffold_day` can raise: `FileExistsError` (line 69), or the
`FileNotFoundError` propagating out of its own `load_config` call. -/
inductive ScaffoldErr
  | alreadyExists
  | configMissing
deriving DecidableEq

/-- The straight-line file-creation block of `scaffold_day`
(template.py lines 80-204): package markers, conditional conftest,
solution file, test file, and the three conditional placeholder touches,
in source order. -/
def scaffold_writes (fs : FS) (year day : Int) : FS :=
  let fs1 := fs.touch (initSolutionsFilePath year)
  let fs2 := fs1.touch (initTestsFilePath year)
  let fs3 :=
    if fs2.contains (conftestFilePath year) then fs2
    else fs2.write (conftestFilePath year) conftestContent
  let fs4 :=
    fs3.write (solutionFilePath (some year) day) (templateFormat year day)
  let fs5 := fs4.write (testFilePath (some year) day) (testFileContent year day)
  let fs6 := fs5.touch (exampleFilePath (some year) day)
  let fs7 := fs6.touch (inputFilePath (some year) day)
  fs7.touch (puzzleFilePath (some year) day)

/-- `scaffold_day` (template.py lines 38-206): loads the config, resolves
the year-based paths, fails with `FileExistsError` when the solution file
already exists, optionally runs the best-effort download (a failure is
only a printed warning), then performs the file creations and returns
`(solution_path, test_path, example_path)`. -/
def scaffold_day (fs : FS) (cfg : ConfigFile) (day : Int) (download : Bool)
    (dl : DownloadOutcome) :
    Except ScaffoldErr (FS × FilePath × FilePath × FilePath) :=
  match load_config cfg with
  | .error _ => .error .configMissing
  | .ok doc =>
    let year := yearOf doc
    if fs.contains (solutionFilePath (some year) day) then
      .error .alreadyExists
    else
      let fs1 := if download then applyDownload year day dl fs else fs
      .ok (scaffold_writes fs1 year day,
        solutionFilePath (some year) day,
        testFilePath (some year) day,
        exampleFilePath (some year) day)

/-- Models `str.replace("day", "")`: delete every (leftmost,
non-overlapping) occurrence of `day` from the character list. -/
def stripDay : List Char → List Char
  | 'd' :: 'a' :: 'y' :: rest => stripDay rest
  | c :: rest => c :: stripDay rest
  | [] => []

/-- Models `fnmatch`-style matching of the glob `day*.py`: for filenames
this is exactly "starts with `day` and ends with `.py`" (both can only
hold together when the name has at least 6 characters, where the two
regions cannot overlap). -/
def matchesDayGlob (name : String) : Bool :=
  "day".data.isPrefixOf name.data && ".py".data.isSuffixOf name.data

/-- The whitespace characters `int()` strips (the ASCII ones; the model
does not cover non-ASCII Unicode whitespace). -/
def isPySpace (c : Char) : Bool :=
  c = ' ' || c = '\t' || c = '\n' || c = '\r' || c = '\x0b' || c = '\x0c'

/-- A decimal digit run as accepted by Python `int()` after its first
digit: further digits, with single underscores allowed between digits. -/
def decRun? : List Char → Nat → Option Nat
  | [], acc => some acc
  | '_' :: rest, acc =>
    match rest with
    | c :: rest2 =>
      if c.isDigit then decRun? rest2 (acc * 10 + (c.toNat - 48)) else none
    | [] => none
  | c :: rest, acc =>
    if c.isDigit then decRun? rest (acc * 10 + (c.toNat - 48)) else none

/-- Models Python `int(text)`: optional surrounding whitespace, an
optional sign, then a digit run; anything else raises `ValueError`
(`none` here). -/
def pyInt? (s : String) : Option Int :=
  let t := s.data.dropWhile isPySpace
  let t := (t.reverse.dropWhile isPySpace).reverse
  match t with
  | '-' :: c :: rest =>
    if c.isDigit then (decRun? rest (c.toNat - 48)).map (fun n => -(n : Int))
    else none
  | '+' :: c :: rest =>
    if c.isDigit then (decRun? rest (c.toNat - 48)).map (fun n => (n : Int))
    else none
  | c :: rest =>
    if c.isDigit then (decRun? rest (c.toNat - 48)).map (fun n => (n : Int))
    else none
  | [] => none

/-- The loop body of `get_available_days` (template.py lines 225-230):
for a glob match, take the stem (`.py` removed), delete `day`
(`str.replace`), and parse an integer, with `ValueError` giving `none`. -/
def dayFileParse (name : String) : Option Int :=
  if matchesDayGlob name then
    pyInt? (String.mk (stripDay (name.data.take (name.data.length - 3))))
  else none

/-- `get_available_days` (template.py lines 209-232): scan the
partition's solutions directory for `day*.py`, parse out day numbers,
silently drop unparsable names, and sort ascending (`sorted(days)`;
Python's stable sort and this insertion sort agree on integers). -/
def get_available_days (fs : FS) (year : Partition) : List Int :=
  ((fs.listDir (solutionsDirPath year)).filterMap dayFileParse).insertionSort
    (· ≤ ·)

/-- A Python exception, as observed by the handlers in runner.py:
either an `AttributeError` for a missing module attribute, or any other
raised exception with its message. -/
inductive Exn
  | attributeError (name : String)
  | raised (msg : String)
deriving DecidableEq

/-- Opaque payloads (`Data`, `Result`): the harness passes them through
untouched, so a single opaque carrier type suffices. -/
abbrev Val := String

/-- A loaded solution module.  Attribute lookup of one of the three
contract names yields `none` exactly when Python would raise
`AttributeError`.  Calls can raise (`Except.error`); the two part
functions also report the wall-clock time their call consumed, modelling
the `time.perf_counter()` pair the harness wraps around exactly that
call. -/
structure PyModule where
  parseInput? : Option (String → Except Exn Val)
  partOne? : Option (Val → Except Exn (Val × Nat))
  partTwo? : Option (Val → Except Exn (Val × Nat))

/-- The semantics of executing Python source text as a module
(`spec.loader.exec_module`): source text determines the resulting module,
or an exception raised during execution. -/
abbrev ExecOracle := String → Except Exn PyModule

/-- Models `importlib.util.spec_from_file_location(name, path)` +
`module_from_spec` + `exec_module` (runner.py lines 35-42 and 103-111):
the unit is produced from the source text read at the resolved file path;
the bare `name` only becomes the module's `__name__`, and none of the
three steps consults or registers anything in `sys.modules`, so the
process module namespace is returned unchanged. -/
def load_module (ex : ExecOracle) (sysModules : List (String × PyModule))
    (name : String) (src : String) :
    List (String × PyModule) × Except Exn PyModule :=
  (sysModules, ex src)

/-- The parse/part_one/part_two call sequence shared verbatim by
`run_day` (runner.py lines 54-65) and `run_all` (lines 119-127):
attribute lookups happen lazily at each call site. -/
def execParts (m : PyModule) (inputText : String) :
    Except Exn (Val × Val × Nat × Nat) :=
  match m.parseInput? with
  | none => .error (.attributeError "parse_input")
  | some pi =>
    match pi inputText with
    | .error e => .error e
    | .ok data =>
      match m.partOne? with
      | none => .error (.attributeError "part_one")
      | some p1 =>
        match p1 data with
        | .error e => .error e
        | .ok (r1, t1) =>
          match m.partTwo? with
          | none => .error (.attributeError "part_two")
          | some p2 =>
            match p2 data with
            | .error e => .error e
            | .ok (r2, t2) => .ok (r1, r2, t1, t2)

/-- `read_input` (aoc_cli.py lines 151-170): `FileNotFoundError` when the
input file is absent, otherwise its contents (a zero-byte file reads as
the empty string). -/
def read_input (fs : FS) (day : Int) (year : Partition) :
    Except String String :=
  match fs.read (inputFilePath year day) with
  | none => .error "FileNotFoundError"
  | some s => .ok s

/-- `read_puzzle` (aoc_cli.py lines 192-211). -/
def read_puzzle (fs : FS) (day : Int) (year : Partition) :
    Except String String :=
  match fs.read (puzzleFilePath year day) with
  | none => .error "FileNotFoundError"
  | some s => .ok s

/-- `read_example` (aoc_cli.py lines 173-189). -/
def read_example (fs : FS) (day : Int) (year : Partition) :
    Except String String :=
  match fs.read (exampleFilePath year day) with
  | none => .error "FileNotFoundError"
  | some s => .ok s

/-- The observable outcome of `run_day` (runner.py lines 12-72): the
three distinct `exit(1)` reports, or success with both results and both
timings. -/
inductive RunDayOutcome
  | solutionNotFound
  | inputNotFound
  | errorRunning (e : Exn)
  | success (r1 r2 : Val) (t1 t2 : Nat)
deriving DecidableEq

/-- `run_day` (runner.py lines 12-72): resolve the solution path, exit
with "not found" when absent, dynamically load it, read the input (its
`FileNotFoundError` gets the dedicated "Input file not found" exit), then
run the contract; any exception from loading or from the three calls is
caught by the blanket handler and reported generically. -/
def run_day (fs : FS) (ex : ExecOracle) (day : Int) (year : Partition) :
    RunDayOutcome :=
  match fs.read (solutionFilePath year day) with
  | none => .solutionNotFound
  | some src =>
    match ex src with
    | .error e => .errorRunning e
    | .ok m =>
      match read_input fs day year with
      | .error _ => .inputNotFound
      | .ok inputText =>
        match execParts m inputText with
        | .error e => .errorRunning e
        | .ok (r1, r2, t1, t2) => .success r1 r2 t1 t2

/-- One per-day console line of `run_all` (runner.py lines 102-138). -/
inductive DayReport
  | loadFailed (day : Int) (e : Exn)
  | inputMissing (day : Int)
  | success (day : Int) (r1 r2 : Val) (elapsed : Nat)
deriving DecidableEq

/-- The body of the `for day in available_days` loop of `run_all`
(runner.py lines 92-138).  `spec_from_file_location` never returns `None`
for a `.py` path, so the `Could not load module` branch (lines 106-108)
is unreachable here; a day file that disappeared between the directory
scan and the load makes `exec_module` raise `FileNotFoundError`, which
the blanket `except Exception` turns into a per-day error line. -/
def runAllBody (fs : FS) (ex : ExecOracle) (year : Partition) (day : Int) :
    DayReport :=
  match fs.read (solutionFilePath year day) with
  | none => .loadFailed day (.raised "FileNotFoundError")
  | some src =>
    match ex src with
    | .error e => .loadFailed day e
    | .ok m =>
      match read_input fs day year with
      | .error _ => .inputMissing day
      | .ok inputText =>
        match execParts m inputText with
        | .error e => .loadFailed day e
        | .ok (r1, r2, t1, t2) => .success day r1 r2 (t1 + t2)

/-- `run_all` (runner.py lines 75-141): enumerate the scaffolded days,
process each in order, and accumulate `total_time += elapsed` only on the
success path; returns the per-day report lines and the final aggregate. -/
def run_all (fs : FS) (ex : ExecOracle) (year : Partition) :
    List DayReport × Nat :=
  (get_available_days fs year).foldl
    (fun acc day =>
      match runAllBody fs ex year day with
      | .success d r1 r2 elapsed =>
          (acc.1 ++ [DayReport.success d r1 r2 elapsed], acc.2 + elapsed)
      | r => (acc.1 ++ [r], acc.2))
    ([], 0)

/-- A parsed CLI invocation (the argparse subcommands of main.py). -/
inductive Command
  | scaffoldCmd (day : Int) (download : Bool)
  | downloadCmd (day : Int) (inputOnly puzzleOnly : Bool)
  | readCmd (day : Int)
  | solveCmd (day : Int)
  | allCmd
  | timeCmd (day : Option Int) (allFlag : Bool)

/-- What an invocation of `main` observably does.  Calls that hand off to
an external collaborator (aoc-cli, the pytest benchmark runner) are
recorded with the arguments they receive. -/
inductive MainOutcome
  | configError
  | scaffoldOk (fsResult : FS) (solutionP testP exampleP : FilePath)
  | scaffoldFailed
  | downloadInvoked (day : Int) (year : Int) (wantInput wantPuzzle : Bool)
  | readOk (text : String)
  | readFailed
  | solveOutcome (o : RunDayOutcome)
  | allOutcome (reports : List DayReport) (total : Nat)
  | benchOne (testP : FilePath)
  | benchMissingTest
  | benchAll (testsDir : FilePath)
  | timeUsageError
deriving DecidableEq

/-- `main` (main.py lines 20-153).  `load_config` runs first and its
`FileNotFoundError` propagates uncaught; `current_year` is the `--year`
value when given, else the configured default.  Note that the scaffold
branch (lines 92-105) calls `scaffold_day(args.day, download=...)`
without passing any year: `scaffold_day` re-reads the config itself.
The `time` branch mirrors `elif args.day:`, under which a day of `0` is
falsy and yields the usage error. -/
def main (fs : FS) (ex : ExecOracle) (dl : DownloadOutcome)
    (cfg : ConfigFile) (cmd : Command) (yearFlag : Option Int) :
    MainOutcome :=
  match load_config cfg with
  | .error _ => .configError
  | .ok doc =>
    let year := yearOf doc
    let currentYear := yearFlag.getD year
    match cmd with
    | .scaffoldCmd day download =>
      match scaffold_day fs cfg day download dl with
      | .ok (fsR, sp, tp, ep) => .scaffoldOk fsR sp tp ep
      | .error .alreadyExists => .scaffoldFailed
      | .error .configMissing => .configError
    | .downloadCmd day inputOnly puzzleOnly =>
      .downloadInvoked day currentYear (!puzzleOnly) (!inputOnly)
    | .readCmd day =>
      match read_puzzle fs day (some currentYear) with
      | .error _ => .readFailed
      | .ok text => .readOk text
    | .solveCmd day => .solveOutcome (run_day fs ex day (some currentYear))
    | .allCmd =>
      let r := run_all fs ex (some currentYear)
      .allOutcome r.1 r.2
    | .timeCmd day? allFlag =>
      if allFlag then .benchAll (testsDirPath (some currentYear))
      else
        match day? with
        | some day =>
          if day = 0 then .timeUsageError
          else if fs.contains (testFilePath (some currentYear) day) then
            .benchOne (testFilePath (some currentYear) day)
          else .benchMissingTest
        | none => .timeUsageError

/-! ### Basic facts about the filesystem model -/

theorem FS.read_write_self (fs : FS) (p : FilePath) (s : String) :
    (fs.write p s).read p = some s := by
  simp [FS.write, FS.read]

theorem FS.read_write_ne (fs : FS) {p q : FilePath} (s : String)
    (h : q ≠ p) : (fs.write p s).read q = fs.read q := by
  simp [FS.write, FS.read, h]

theorem FS.contains_write_self (fs : FS) (p : FilePath) (s : String) :
    (fs.write p s).contains p = true := by
  simp [FS.contains, FS.read_write_self]

theorem FS.contains_write_mono (fs : FS) (p q : FilePath) (s : String)
    (h : fs.contains q = true) : (fs.write p s).contains q = true := by
  by_cases hqp : q = p
  · subst hqp; exact fs.contains_write_self q s
  · simpa [FS.contains, fs.read_write_ne s hqp] using h

theorem FS.read_touch_mono (fs : FS) (p q : FilePath) (s : String)
    (h : fs.read q = some s) : (fs.touch p).read q = some s := by
  unfold FS.touch
  by_cases hc : fs.contains p = true
  · simp [hc, h]
  · have hqp : q ≠ p := by
      intro e; subst e; simp [FS.contains, h] at hc
    simp [hc, fs.read_write_ne "" hqp, h]

theorem FS.contains_touch_mono (fs : FS) (p q : FilePath)
    (h : fs.contains q = true) : (fs.touch p).contains q = true := by
  simp only [FS.contains, Option.isSome_iff_exists] at h
  obtain ⟨s, hs⟩ := h
  simp [FS.contains, fs.read_touch_mono p q s hs]

theorem FS.read_touch_present (fs : FS) (p : FilePath)
    (h : fs.contains p = true) : (fs.touch p) = fs := by
  simp [FS.touch, h]

theorem FS.read_touch_absent (fs : FS) (p : FilePath)
    (h : fs.contains p = false) : (fs.touch p).read p = some "" := by
  simp [FS.touch, h, FS.read_write_self]

theorem FS.read_touch_ne (fs : FS) {p q : FilePath}
    (h : q ≠ p) : (fs.touch p).read q = fs.read q := by
  unfold FS.touch
  by_cases hc : fs.contains p
  · simp [hc]
  · simp [hc, fs.read_write_ne "" h]

/-- The solution file is present after the scaffold write block. -/
theorem scaffold_writes_contains_solution (fs : FS) (year day : Int) :
    (scaffold_writes fs year day).contains
      (solutionFilePath (some year) day) = true := by
  unfold scaffold_writes
  apply FS.contains_touch_mono
  apply FS.contains_touch_mono
  apply FS.contains_touch_mono
  apply FS.contains_write_mono
  apply FS.contains_write_self

/-! ### C1: scaffold is strictly create-once -/

/-- **C1**: for every valid day `d ∈ [1,25]`, when the solution file for
`(d, partition)` already exists, `scaffold_day` fails with
`AlreadyExists` (before performing any write — the returned value carries
no filesystem, the caller's state is untouched); when it does not exist,
`scaffold_day` succeeds, and an immediate second scaffold of the same day
fails with `AlreadyExists`, so an existing solution file is never
overwritten. -/
theorem scaffold_create_once (fs : FS) (doc : List (String × Int))
    (day : Int) (download download2 : Bool) (dl dl2 : DownloadOutcome)
    (h1 : 1 ≤ day) (h2 : day ≤ 25) :
    (fs.contains (solutionFilePath (some (yearOf doc)) day) = true →
      scaffold_day fs (.present doc) day download dl =
        .error .alreadyExists) ∧
    (fs.contains (solutionFilePath (some (yearOf doc)) day) = false →
      ∃ fs2 sp tp ep,
        scaffold_day fs (.present doc) day download dl =
          .ok (fs2, sp, tp, ep) ∧
        scaffold_day fs2 (.present doc) day download2 dl2 =
          .error .alreadyExists) := by
  constructor
  · intro h
    simp [scaffold_day, load_config, h]
  · intro h
    refine ⟨scaffold_writes
        (if download then applyDownload (yearOf doc) day dl fs else fs)
        (yearOf doc) day,
      solutionFilePath (some (yearOf doc)) day,
      testFilePath (some (yearOf doc)) day,
      exampleFilePath (some (yearOf doc)) day, ?_, ?_⟩
    · simp [scaffold_day, load_config, h]
    · simp [scaffold_day, load_config, scaffold_writes_contains_solution]

/-- Witness for C1 at `day = 3`, an empty filesystem and the
configuration `{"year": 2025}`. -/
theorem scaffold_create_once_witness :
    FS.contains []
        (solutionFilePath (some (yearOf [("year", 2025)])) 3) = false ∧
    (FS.contains []
        (solutionFilePath (some (yearOf [("year", 2025)])) 3) = false →
      ∃ fs2 sp tp ep,
        scaffold_day [] (.present [("year", 2025)]) 3 false (.fails id "") =
          .ok (fs2, sp, tp, ep) ∧
        scaffold_day fs2 (.present [("year", 2025)]) 3 false (.fails id "") =
          .error .alreadyExists) :=
  ⟨by decide,
    (scaffold_create_once [] [("year", 2025)] 3 false false (.fails id "")
      (.fails id "") (by decide) (by decide)).2⟩

/-! ### C2: batch mode isolates per-day failures -/

/-- The contribution of one console line to `total_time`: the code adds
`time1 + time2` on the success path only (runner.py lines 129-130). -/
def reportElapsed : DayReport → Nat
  | .success _ _ _ e => e
  | _ => 0

/-- The fold of `run_all`, characterised: each enumerated day contributes
exactly one report, computed independently of every other day, and the
accumulator adds exactly the successful days' elapsed times. -/
theorem run_all_foldl_spec (fs : FS) (ex : ExecOracle) (year : Partition)
    (l : List Int) (acc : List DayReport × Nat) :
    l.foldl
      (fun acc day =>
        match runAllBody fs ex year day with
        | .success d r1 r2 elapsed =>
            (acc.1 ++ [DayReport.success d r1 r2 elapsed], acc.2 + elapsed)
        | r => (acc.1 ++ [r], acc.2)) acc =
    (acc.1 ++ l.map (runAllBody fs ex year),
      acc.2 +
        (l.map (fun d => reportElapsed (runAllBody fs ex year d))).sum) := by
  induction l generalizing acc with
  | nil => simp
  | cons d t ih =>
    simp only [List.foldl_cons, List.map_cons, List.sum_cons]
    cases hb : runAllBody fs ex year d with
    | success d0 r1 r2 elapsed => simp [ih, reportElapsed, Nat.add_assoc]
    | loadFailed d0 e => simp [ih, reportElapsed]
    | inputMissing d0 => simp [ih, reportElapsed]

/-- **C2**: `run_all` visits each enumerated day independently — the
report list is exactly one line per enumerated day, each computed from
that day alone, so a per-day failure (missing file, load error, missing
input, or an exception from `parse_input`/`part_one`/`part_two`) is
reported for that day only and never aborts the batch; and the final
aggregate is the sum of `time1 + time2` over exactly the fully
successful days (failed days contribute `0`). -/
theorem run_all_failure_isolation (fs : FS) (ex : ExecOracle)
    (year : Partition) :
    (run_all fs ex year).1 =
      (get_available_days fs year).map (runAllBody fs ex year) ∧
    (run_all fs ex year).2 =
      ((run_all fs ex year).1.map reportElapsed).sum := by
  have h := run_all_foldl_spec fs ex year (get_available_days fs year) ([], 0)
  constructor
  · show (run_all fs ex year).1 = _
    unfold run_all
    rw [h]
    simp
  · unfold run_all
    rw [h]
    simp only [List.map_map, List.nil_append, Nat.zero_add]
    rfl

/-! ### C3: the registry enumerator -/

theorem FS.mem_keys_of_contains (fs : FS) (p : FilePath)
    (h : fs.contains p = true) : p ∈ fs.map Prod.fst := by
  induction fs with
  | nil => simp [FS.contains, FS.read] at h
  | cons e t ih =>
    obtain ⟨q, s⟩ := e
    by_cases hp : p = q
    · simp [hp]
    · simp only [FS.contains, FS.read, if_neg hp] at h
      simpa using Or.inr (ih h)

theorem FS.mem_listDir_of_contains (fs : FS) (dir : FilePath)
    (name : String) (h : fs.contains (dir ++ [name]) = true) :
    name ∈ fs.listDir dir := by
  unfold FS.listDir
  rw [List.mem_filterMap]
  refine ⟨dir ++ [name], List.mem_dedup.mpr (fs.mem_keys_of_contains _ h), ?_⟩
  have hdrop : (dir ++ [name]).dropLast = dir := by simp
  have hlast : (dir ++ [name]).getLast? = some name := by simp
  rw [if_pos hdrop, hlast]

/-- **C3 counterexample**: a solutions directory holding both `day1.py`
and `day01.py` makes `get_available_days` return `[1, 1]` — the listing
contains a duplicate, so it is not "an ascending sequence of day numbers
with no duplicates that equals exactly the set of days whose solution
file exists". -/
theorem get_available_days_not_nodup :
    get_available_days
        [(["2025", "solutions", "day01.py"], "a"),
          (["2025", "solutions", "day1.py"], "b")] (some 2025) = [1, 1] ∧
    ¬ (get_available_days
        [(["2025", "solutions", "day01.py"], "a"),
          (["2025", "solutions", "day1.py"], "b")] (some 2025)).Nodup := by
  decide

/-- **C3 (amended)**: `get_available_days` returns a nondecreasing
(ascending, but possibly with duplicates) sequence with one entry per
filename in the partition's solutions directory that matches `day*.py`
and whose day portion parses as an integer — unparsable names are
silently discarded, distinct aliases of the same day (`day1.py`,
`day01.py`) produce duplicate entries, and every valid day whose
canonically named solution file exists appears in the listing. -/
theorem get_available_days_amended (fs : FS) (year : Partition) :
    (get_available_days fs year).Sorted (· ≤ ·) ∧
    (∀ d : Int, d ∈ get_available_days fs year ↔
      ∃ name ∈ fs.listDir (solutionsDirPath year),
        dayFileParse name = some d) ∧
    (∀ d : Int, 1 ≤ d → d ≤ 25 →
      fs.contains (solutionFilePath year d) = true →
      d ∈ get_available_days fs year) := by
  refine ⟨List.sorted_insertionSort _ _, fun d => ?_, fun d h1 h2 hc => ?_⟩
  · rw [get_available_days,
      (List.perm_insertionSort _ _).mem_iff, List.mem_filterMap]
  · rw [get_available_days,
      (List.perm_insertionSort _ _).mem_iff, List.mem_filterMap]
    refine ⟨"day" ++ dayPadded d ++ ".py",
      FS.mem_listDir_of_contains fs _ _ hc, ?_⟩
    interval_cases d <;> decide

/-- Witness for C3 (amended): with exactly `day07.py` scaffolded in the
2025 partition, day 7 is listed. -/
theorem get_available_days_amended_witness :
    (1 : Int) ≤ 7 ∧ (7 : Int) ≤ 25 ∧
    FS.contains [(["2025", "solutions", "day07.py"], "s")]
      (solutionFilePath (some 2025) 7) = true ∧
    (7 : Int) ∈ get_available_days
      [(["2025", "solutions", "day07.py"], "s")] (some 2025) :=
  ⟨by decide, by decide, by decide,
    (get_available_days_amended
        [(["2025", "solutions", "day07.py"], "s")] (some 2025)).2.2 7
      (by decide) (by decide) (by decide)⟩

/-! ### C4: loading does not validate the contract eagerly -/

/-- A unit lacking `part_two` whose `parse_input` itself raises. -/
def moduleParseRaises : PyModule :=
  ⟨some (fun _ => .error (.raised "boom")), some (fun d => .ok (d, 1)), none⟩

/-- A unit lacking `part_two` with working `parse_input` and `part_one`. -/
def moduleNoPartTwo : PyModule :=
  ⟨some (fun s => .ok s), some (fun d => .ok (d, 1)), none⟩

/-- Execution semantics for the two source texts of `fsC4`. -/
def exC4 : ExecOracle := fun src =>
  if src = "A" then .ok moduleParseRaises
  else if src = "B" then .ok moduleNoPartTwo
  else .error (.raised "ImportError")

/-- Two scaffolded days (sources `A`, `B`) with their inputs present. -/
def fsC4 : FS :=
  [(solutionFilePath (some 2025) 1, "A"),
    (solutionFilePath (some 2025) 2, "B"),
    (inputFilePath (some 2025) 1, "in1"),
    (inputFilePath (some 2025) 2, "in2")]

/-- **C4 counterexample**: loading a unit that lacks `part_two` does not
fail with a `ContractViolation` at load time.  Day 1's unit lacks
`part_two`, yet the reported failure is its `parse_input` exception —
proof that no eager validation of the three callables happens; day 2's
unit also lacks `part_two`, and its failure is the `AttributeError`
surfacing only at the `part_two` call site (after `parse_input` and
`part_one` already ran), caught by the generic blanket handler. -/
theorem run_day_no_eager_validation :
    moduleParseRaises.partTwo? = none ∧
    run_day fsC4 exC4 1 (some 2025) = .errorRunning (.raised "boom") ∧
    moduleNoPartTwo.partTwo? = none ∧
    run_day fsC4 exC4 2 (some 2025) =
      .errorRunning (.attributeError "part_two") :=
  ⟨rfl, by decide, rfl, by decide⟩

/-- **C4 (amended)**: `run_day` fails with the dedicated solution-not-
found exit when the solution file is absent; but a unit lacking a
required callable is not rejected eagerly with a `ContractViolation` —
the missing attribute surfaces lazily at its call site as a generic
execution failure: with `part_two` absent, `parse_input` and `part_one`
run to completion first, then the `AttributeError` is caught by the
blanket handler. -/
theorem run_day_lazy_contract (fs : FS) (ex : ExecOracle) (day : Int)
    (year : Partition) :
    (fs.read (solutionFilePath year day) = none →
      run_day fs ex day year = .solutionNotFound) ∧
    (∀ src m pi p1 inputText data r1 t1,
      fs.read (solutionFilePath year day) = some src →
      ex src = .ok m →
      fs.read (inputFilePath year day) = some inputText →
      m.parseInput? = some pi →
      pi inputText = .ok data →
      m.partOne? = some p1 →
      p1 data = .ok (r1, t1) →
      m.partTwo? = none →
      run_day fs ex day year = .errorRunning (.attributeError "part_two")) := by
  constructor
  · intro h
    simp [run_day, h]
  · intro src m pi p1 inputText data r1 t1 hsrc hex hin hpi hpidata hp1 hp1v hp2
    simp [run_day, read_input, hsrc, hex, hin, execParts, hpi, hpidata, hp1,
      hp1v, hp2]

/-- Witness for C4 (amended) at day 2 of `fsC4`. -/
theorem run_day_lazy_contract_witness :
    run_day fsC4 exC4 2 (some 2025) =
      .errorRunning (.attributeError "part_two") :=
  (run_day_lazy_contract fsC4 exC4 2 (some 2025)).2 "B" moduleNoPartTwo
    (fun s => .ok s) (fun d => .ok (d, 1)) "in2" "in2" "in2" 1
    (by decide) rfl (by decide) rfl rfl rfl rfl rfl

/-! ### Decimal rendering is injective (partition path components) -/

/-- Read a decimal digit string back into a number, starting from `a`. -/
def pushDigits (a : Nat) (l : List Char) : Nat :=
  l.foldl (fun acc c => 10 * acc + (c.toNat - 48)) a

theorem pushDigits_cons (a : Nat) (c : Char) (l : List Char) :
    pushDigits a (c :: l) = pushDigits (10 * a + (c.toNat - 48)) l := rfl

theorem digitChar_toNat (k : Nat) (h : k < 10) :
    (Nat.digitChar k).toNat = 48 + k := by
  interval_cases k <;> rfl

theorem digitChar_isDigit (k : Nat) (h : k < 10) :
    (Nat.digitChar k).isDigit = true := by
  interval_cases k <;> decide

theorem pushDigits_toDigitsCore :
    ∀ (f n : Nat) (ds : List Char), n < f →
      pushDigits 0 (Nat.toDigitsCore 10 f n ds) = pushDigits n ds := by
  intro f
  induction f with
  | zero => intro n ds h; omega
  | succ f ih =>
    intro n ds h
    show pushDigits 0
      (if n / 10 = 0 then Nat.digitChar (n % 10) :: ds
        else Nat.toDigitsCore 10 f (n / 10) (Nat.digitChar (n % 10) :: ds)) =
      pushDigits n ds
    by_cases h0 : n / 10 = 0
    · have hn : n < 10 := by omega
      rw [if_pos h0, pushDigits_cons,
        digitChar_toNat (n % 10) (Nat.mod_lt n (by omega))]
      have : n % 10 = n := Nat.mod_eq_of_lt hn
      simp [this]
    · have hn0 : 0 < n := by
        rcases Nat.eq_zero_or_pos n with h | h
        · subst h; simp at h0
        · exact h
      have hlt : n / 10 < f := by
        have hdiv : n / 10 < n := Nat.div_lt_self hn0 (by omega)
        omega
      rw [if_neg h0, ih (n / 10) _ hlt, pushDigits_cons,
        digitChar_toNat (n % 10) (Nat.mod_lt n (by omega))]
      have : 10 * (n / 10) + (48 + n % 10 - 48) = n := by
        have := Nat.div_add_mod n 10
        omega
      rw [this]

theorem pushDigits_repr_data (n : Nat) :
    pushDigits 0 (Nat.repr n).data = n := by
  have h := pushDigits_toDigitsCore (n + 1) n [] (Nat.lt_succ_self n)
  have hd : (Nat.repr n).data = Nat.toDigitsCore 10 (n + 1) n [] := rfl
  rw [hd, h]
  rfl

theorem toDigitsCore_head :
    ∀ (f n : Nat) (ds : List Char), 0 < f →
      ∃ k rest, Nat.toDigitsCore 10 f n ds = Nat.digitChar k :: rest ∧
        k < 10 := by
  intro f
  induction f with
  | zero => intro n ds h; omega
  | succ f ih =>
    intro n ds _
    show ∃ k rest,
      (if n / 10 = 0 then Nat.digitChar (n % 10) :: ds
        else Nat.toDigitsCore 10 f (n / 10) (Nat.digitChar (n % 10) :: ds)) =
        Nat.digitChar k :: rest ∧ k < 10
    by_cases h0 : n / 10 = 0
    · exact ⟨n % 10, ds, by rw [if_pos h0], Nat.mod_lt n (by omega)⟩
    · rcases Nat.eq_zero_or_pos f with hf | hf
      · subst hf
        exact ⟨n % 10, ds, by rw [if_neg h0]; rfl, Nat.mod_lt n (by omega)⟩
      · obtain ⟨k, rest, heq, hk⟩ :=
          ih (n / 10) (Nat.digitChar (n % 10) :: ds) hf
        exact ⟨k, rest, by rw [if_neg h0, heq], hk⟩

theorem nat_repr_head (n : Nat) :
    ∃ k rest, (Nat.repr n).data = Nat.digitChar k :: rest ∧ k < 10 := by
  exact toDigitsCore_head (n + 1) n [] (Nat.succ_pos n)

theorem nat_repr_head_isDigit (n : Nat) :
    ∃ c rest, (Nat.repr n).data = c :: rest ∧ c.isDigit = true := by
  obtain ⟨k, rest, heq, hk⟩ := nat_repr_head n
  exact ⟨Nat.digitChar k, rest, heq, digitChar_isDigit k hk⟩

/-- `str(年)`-style decimal rendering never collides: `toString` on `Int`
is injective, so distinct year partitions resolve to distinct path
components. -/
theorem int_toString_injective :
    Function.Injective (fun y : Int => toString y) := by
  intro a b h
  simp only [] at h
  cases a with
  | ofNat m =>
    cases b with
    | ofNat n =>
      have hd : (Nat.repr m).data = (Nat.repr n).data := congrArg String.data h
      have := pushDigits_repr_data m
      rw [hd, pushDigits_repr_data n] at this
      simp [this]
    | negSucc n =>
      exfalso
      have hd : (Nat.repr m).data = ("-" ++ Nat.repr (n + 1)).data :=
        congrArg String.data h
      obtain ⟨c, rest, heq, hc⟩ := nat_repr_head_isDigit m
      rw [heq, String.data_append] at hd
      have : c = '-' := by
        have := List.head_eq_of_cons_eq hd
        simpa using this
      rw [this] at hc
      simp at hc
  | negSucc m =>
    cases b with
    | ofNat n =>
      exfalso
      have hd : ("-" ++ Nat.repr (m + 1)).data = (Nat.repr n).data :=
        congrArg String.data h
      obtain ⟨c, rest, heq, hc⟩ := nat_repr_head_isDigit n
      rw [heq, String.data_append] at hd
      have : '-' = c := by
        have := List.head_eq_of_cons_eq hd
        simpa using this
      rw [← this] at hc
      simp at hc
    | negSucc n =>
      have hd : ("-" ++ Nat.repr (m + 1)).data = ("-" ++ Nat.repr (n + 1)).data :=
        congrArg String.data h
      simp only [String.data_append] at hd
      have hd2 : (Nat.repr (m + 1)).data = (Nat.repr (n + 1)).data := by
        simpa using hd
      have := pushDigits_repr_data (m + 1)
      rw [hd2, pushDigits_repr_data (n + 1)] at this
      simp [Int.negSucc.injEq]
      omega

/-- The year component determines the partition: resolved solution paths
of distinct partitions are distinct (for the same day and filename). -/
theorem solutionFilePath_partition_injective (p1 p2 : Partition) (d : Int)
    (h : solutionFilePath p1 d = solutionFilePath p2 d) : p1 = p2 := by
  cases p1 with
  | none =>
    cases p2 with
    | none => rfl
    | some y =>
      exfalso
      simp only [solutionFilePath, solutionsDirPath, List.cons_append,
        List.nil_append, List.cons.injEq] at h
      obtain ⟨h1, h2, -⟩ := h
      cases y with
      | ofNat n =>
        have hd : ("src" : String).data = (Nat.repr n).data :=
          congrArg String.data h1
        obtain ⟨c, rest, heq, hc⟩ := nat_repr_head_isDigit n
        rw [heq] at hd
        have : 's' = c := by
          have := List.head_eq_of_cons_eq hd
          simpa using this
        rw [← this] at hc
        simp at hc
      | negSucc n =>
        have hd : ("src" : String).data = ("-" ++ Nat.repr (n + 1)).data :=
          congrArg String.data h1
        rw [String.data_append] at hd
        have : 's' = '-' := by
          have := List.head_eq_of_cons_eq hd
          simpa using this
        simp at this
  | some y =>
    cases p2 with
    | none =>
      exfalso
      simp only [solutionFilePath, solutionsDirPath, List.cons_append,
        List.nil_append, List.cons.injEq] at h
      obtain ⟨h1, h2, -⟩ := h
      cases y with
      | ofNat n =>
        have hd : (Nat.repr n).data = ("src" : String).data :=
          congrArg String.data h1
        obtain ⟨c, rest, heq, hc⟩ := nat_repr_head_isDigit n
        rw [heq] at hd
        have : c = 's' := by
          have := List.head_eq_of_cons_eq hd
          simpa using this
        rw [this] at hc
        simp at hc
      | negSucc n =>
        have hd : ("-" ++ Nat.repr (n + 1)).data = ("src" : String).data :=
          congrArg String.data h1
        rw [String.data_append] at hd
        have : '-' = 's' := by
          have := List.head_eq_of_cons_eq hd
          simpa using this
        simp at this
    | some y2 =>
      simp only [solutionFilePath, solutionsDirPath, List.cons_append,
        List.nil_append, List.cons.injEq] at h
      obtain ⟨h1, -, -⟩ := h
      exact congrArg some (int_toString_injective h1)

/-! ### C5: dynamic loads are keyed by resolved path, not bare name -/

/-- **C5**: the loader is keyed by the full resolved file path, never by
the bare file name.  For two distinct partitions holding same-named
solution files for the same day: (1) the resolved load keys (paths) are
distinct even though the bare names coincide; (2) loading is a function
of the source text read at the resolved path alone and never consults or
registers anything in `sys.modules` — the process module namespace comes
back unchanged from both loads, so neither unit can alias, collide with,
or shadow the other there; (3,4) each partition's `run_day` executes the
unit produced from its own file's text. -/
theorem load_keyed_by_path (ex : ExecOracle)
    (sysModules : List (String × PyModule)) (fs : FS) (p1 p2 : Partition)
    (d : Int) (s1 s2 : String)
    (hne : p1 ≠ p2)
    (h1 : fs.read (solutionFilePath p1 d) = some s1)
    (h2 : fs.read (solutionFilePath p2 d) = some s2) :
    solutionFilePath p1 d ≠ solutionFilePath p2 d ∧
    (∀ s, load_module ex sysModules ("day" ++ dayPadded d) s =
      (sysModules, ex s)) ∧
    run_day fs ex d p1 =
      (match ex s1 with
        | .error e => .errorRunning e
        | .ok m =>
          match read_input fs d p1 with
          | .error _ => .inputNotFound
          | .ok t =>
            match execParts m t with
            | .error e => .errorRunning e
            | .ok (r1, r2, t1, t2) => .success r1 r2 t1 t2) ∧
    run_day fs ex d p2 =
      (match ex s2 with
        | .error e => .errorRunning e
        | .ok m =>
          match read_input fs d p2 with
          | .error _ => .inputNotFound
          | .ok t =>
            match execParts m t with
            | .error e => .errorRunning e
            | .ok (r1, r2, t1, t2) => .success r1 r2 t1 t2) := by
  refine ⟨fun h => hne (solutionFilePath_partition_injective p1 p2 d h),
    fun s => rfl, ?_, ?_⟩
  · rw [run_day, h1]
  · rw [run_day, h2]

/-- Witness for C5: partitions 2024 and 2025 both holding a `day07.py`. -/
theorem load_keyed_by_path_witness :
    (some (2024 : Int) : Partition) ≠ (some (2025 : Int) : Partition) ∧
    FS.read
        [(solutionFilePath (some 2024) 7, "S1"),
          (solutionFilePath (some 2025) 7, "S2")]
        (solutionFilePath (some 2024) 7) = some "S1" ∧
    solutionFilePath (some 2024) 7 ≠ solutionFilePath (some 2025) 7 :=
  ⟨by decide, by decide,
    (load_keyed_by_path (fun _ => .error (.raised "E")) []
      [(solutionFilePath (some 2024) 7, "S1"),
        (solutionFilePath (some 2025) 7, "S2")]
      (some 2024) (some 2025) 7 "S1" "S2"
      (by decide) (by decide) (by decide)).1⟩

/-! ### C6: the global year flag -/

/-- **C6 counterexample**: the configured year is 2025, `--year 2024` is
given, no solution exists in the 2024 partition — the claim implies
scaffolding day 1 must target the fresh 2024 partition and succeed, but
`main` does not forward the flag to `scaffold_day` (which re-reads the
config), so the invocation fails with `AlreadyExists` because of the
2025 partition's existing `day01.py`. -/
theorem year_flag_not_forwarded_to_scaffold :
    main [(solutionFilePath (some 2025) 1, "S")]
        (fun _ => .error (.raised "E")) (.fails id "")
        (.present [("year", 2025)]) (.scaffoldCmd 1 false) (some 2024) =
      .scaffoldFailed ∧
    FS.contains [(solutionFilePath (some 2025) 1, "S")]
      (solutionFilePath (some 2024) 1) = false := by
  decide

/-- **C6 (amended)**: the `--year` flag overrides the configured default
partition for `download`, `read`, `solve`, `all` and `time` — every path
resolution and execution for those commands uses the flag's year — but
the `scaffold` command ignores the flag entirely: `main` passes no year
to `scaffold_day`, which re-reads the configured year itself, so a
scaffold invocation behaves identically with and without `--year`. -/
theorem year_flag_override (fs : FS) (ex : ExecOracle) (dl : DownloadOutcome)
    (doc : List (String × Int)) (y d : Int) (dflag io pz : Bool) :
    main fs ex dl (.present doc) (.solveCmd d) (some y) =
      .solveOutcome (run_day fs ex d (some y)) ∧
    main fs ex dl (.present doc) (.readCmd d) (some y) =
      (match read_puzzle fs d (some y) with
        | .error _ => .readFailed
        | .ok t => .readOk t) ∧
    main fs ex dl (.present doc) .allCmd (some y) =
      .allOutcome (run_all fs ex (some y)).1 (run_all fs ex (some y)).2 ∧
    main fs ex dl (.present doc) (.downloadCmd d io pz) (some y) =
      .downloadInvoked d y (!pz) (!io) ∧
    main fs ex dl (.present doc) (.timeCmd none true) (some y) =
      .benchAll (testsDirPath (some y)) ∧
    main fs ex dl (.present doc) (.scaffoldCmd d dflag) (some y) =
      main fs ex dl (.present doc) (.scaffoldCmd d dflag) none :=
  ⟨rfl, rfl, rfl, rfl, rfl, rfl⟩

/-! ### C7: configuration fallback -/

/-- **C7 counterexample**: when `.aoc-cli.json` is absent, `load_config`
raises `FileNotFoundError` (its `open` is unguarded), and the whole
invocation dies uncaught instead of falling back to the baked-in default
year — "configuration loading never raises on an absent file" is false. -/
theorem load_config_raises_on_absent_file :
    load_config .absent = .error "FileNotFoundError" ∧
    main [] (fun _ => .error (.raised "E")) (.fails id "") .absent
      (.solveCmd 1) none = .configError :=
  ⟨rfl, by decide⟩

/-- **C7 (amended)**: when the configuration file is present but has no
`year` key, `config.get("year", 2025)` falls back to the baked-in default
2025 and the invocation proceeds normally; but when the file itself is
absent, `load_config` raises rather than falling back. -/
theorem config_missing_key_fallback (fs : FS) (ex : ExecOracle)
    (dl : DownloadOutcome) (doc : List (String × Int)) (d : Int)
    (hk : doc.lookup "year" = none) :
    load_config (.present doc) = .ok doc ∧
    yearOf doc = 2025 ∧
    main fs ex dl (.present doc) (.solveCmd d) none =
      .solveOutcome (run_day fs ex d (some 2025)) := by
  refine ⟨rfl, ?_, ?_⟩
  · rw [yearOf, hk]; rfl
  · show MainOutcome.solveOutcome
        (run_day fs ex d (some (Option.getD none (yearOf doc)))) = _
    rw [yearOf, hk]
    rfl

/-- Witness for C7 (amended): the empty configuration document. -/
theorem config_missing_key_fallback_witness :
    ([] : List (String × Int)).lookup "year" = none ∧
    main [] (fun _ => .error (.raised "E")) (.fails id "")
      (.present []) (.solveCmd 1) none =
      .solveOutcome (run_day [] (fun _ => .error (.raised "E")) 1
        (some 2025)) :=
  ⟨by decide,
    (config_missing_key_fallback [] (fun _ => .error (.raised "E"))
      (.fails id "") [] 1 (by decide)).2.2⟩

/-! ### C8: a download failure during scaffold is non-fatal -/

/-- **C8**: when scaffold is invoked with download requested and the
download step fails (raising after an arbitrary partial effect `e` of
the external tool), scaffolding still succeeds: it performs exactly its
own file-creation side effects (`scaffold_writes`) on top of whatever the
tool left behind, and returns the same three primary resource paths
(solution, test, example) as the no-download case. -/
theorem scaffold_download_failure_nonfatal (fs : FS)
    (doc : List (String × Int)) (day : Int) (e : FS → FS) (msg : String)
    (dl0 : DownloadOutcome)
    (h : fs.contains (solutionFilePath (some (yearOf doc)) day) = false) :
    scaffold_day fs (.present doc) day true (.fails e msg) =
      .ok (scaffold_writes (e fs) (yearOf doc) day,
        solutionFilePath (some (yearOf doc)) day,
        testFilePath (some (yearOf doc)) day,
        exampleFilePath (some (yearOf doc)) day) ∧
    scaffold_day fs (.present doc) day false dl0 =
      .ok (scaffold_writes fs (yearOf doc) day,
        solutionFilePath (some (yearOf doc)) day,
        testFilePath (some (yearOf doc)) day,
        exampleFilePath (some (yearOf doc)) day) := by
  constructor <;> simp [scaffold_day, load_config, h, applyDownload]

/-- Witness for C8: scaffolding day 4 on an empty filesystem with a
download that fails without any partial write. -/
theorem scaffold_download_failure_nonfatal_witness :
    FS.contains []
        (solutionFilePath (some (yearOf [("year", 2025)])) 4) = false ∧
    scaffold_day [] (.present [("year", 2025)]) 4 true (.fails id "boom") =
      .ok (scaffold_writes (id []) (yearOf [("year", 2025)]) 4,
        solutionFilePath (some (yearOf [("year", 2025)])) 4,
        testFilePath (some (yearOf [("year", 2025)])) 4,
        exampleFilePath (some (yearOf [("year", 2025)])) 4) :=
  ⟨by decide,
    (scaffold_download_failure_nonfatal [] [("year", 2025)] 4 id "boom"
      (.fails id "") (by decide)).1⟩

/-! ### C9: scaffold writes conftest and placeholders only when absent -/

theorem ne_of_length_ne {l1 l2 : FilePath} (h : l1.length ≠ l2.length) :
    l1 ≠ l2 :=
  fun e => h (congrArg List.length e)

theorem path_ne_of_component {l1 l2 : FilePath} (i : Nat)
    (h : l1[i]? ≠ l2[i]?) : l1 ≠ l2 :=
  fun e => h (by rw [e])

theorem string_ne_of_head {a b : String} {c d : Char} {ra rb : List Char}
    (ha : a.data = c :: ra) (hb : b.data = d :: rb) (hcd : c ≠ d) :
    a ≠ b := by
  intro h
  rw [h, hb] at ha
  exact hcd (List.head_eq_of_cons_eq ha).symm

theorem testName_ne_conftest (pd : String) :
    "conftest.py" ≠ "test_day" ++ pd ++ ".py" := by
  apply @string_ne_of_head _ _ 'c' 't' ("onftest.py".data)
    (("est_day".data ++ pd.data) ++ ".py".data)
  · rfl
  · show ("test_day" ++ pd ++ ".py").data = _
    rw [String.data_append, String.data_append]
    rfl
  · decide

theorem FS.contains_touch_ne (fs : FS) {p q : FilePath} (h : q ≠ p) :
    (fs.touch p).contains q = fs.contains q := by
  unfold FS.touch
  by_cases hc : fs.contains p = true
  · rw [if_pos hc]
  · rw [if_neg hc]
    unfold FS.contains
    rw [fs.read_write_ne "" h]

theorem conftest_ne_initSolutions (year : Int) :
    conftestFilePath year ≠ initSolutionsFilePath year :=
  path_ne_of_component 1 (by
    show (some "tests" : Option String) ≠ some "solutions"
    decide)

theorem conftest_ne_initTests (year : Int) :
    conftestFilePath year ≠ initTestsFilePath year :=
  path_ne_of_component 2 (by
    show (some "conftest.py" : Option String) ≠ some "__init__.py"
    decide)

theorem conftest_ne_solutionFile (year day : Int) :
    conftestFilePath year ≠ solutionFilePath (some year) day :=
  path_ne_of_component 1 (by
    show (some "tests" : Option String) ≠ some "solutions"
    decide)

theorem conftest_ne_testFile (year day : Int) :
    conftestFilePath year ≠ testFilePath (some year) day :=
  path_ne_of_component 2
    (fun h => testName_ne_conftest (dayPadded day) (Option.some.inj h))

/-- An existing conftest is preserved byte-for-byte by the scaffold write
block. -/
theorem scaffold_writes_preserves_conftest (fs : FS) (year day : Int)
    (s : String) (h : fs.read (conftestFilePath year) = some s) :
    (scaffold_writes fs year day).read (conftestFilePath year) = some s := by
  simp only [scaffold_writes]
  apply FS.read_touch_mono
  apply FS.read_touch_mono
  apply FS.read_touch_mono
  rw [FS.read_write_ne _ _ (conftest_ne_testFile year day),
    FS.read_write_ne _ _ (conftest_ne_solutionFile year day)]
  have h1 := fs.read_touch_mono (initSolutionsFilePath year) _ s h
  have h2 := FS.read_touch_mono _ (initTestsFilePath year) _ s h1
  rw [if_pos (by simp [FS.contains, h2])]
  exact h2

/-- A missing conftest is created with the fixed bootstrap content. -/
theorem scaffold_writes_creates_conftest (fs : FS) (year day : Int)
    (h : fs.contains (conftestFilePath year) = false) :
    (scaffold_writes fs year day).read (conftestFilePath year) =
      some conftestContent := by
  simp only [scaffold_writes]
  apply FS.read_touch_mono
  apply FS.read_touch_mono
  apply FS.read_touch_mono
  rw [FS.read_write_ne _ _ (conftest_ne_testFile year day),
    FS.read_write_ne _ _ (conftest_ne_solutionFile year day)]
  have h2 : ((fs.touch (initSolutionsFilePath year)).touch
      (initTestsFilePath year)).contains (conftestFilePath year) = false := by
    rw [FS.contains_touch_ne _ (conftest_ne_initTests year),
      FS.contains_touch_ne _ (conftest_ne_initSolutions year)]
    exact h
  rw [if_neg (by simp [h2])]
  exact FS.read_write_self _ _ _

/-- Any existing file whose path has four components (all the per-day
data files of every year partition) is preserved byte-for-byte: the
write block only writes three-component paths unconditionally, and its
touches never change an existing file. -/
theorem scaffold_writes_preserves_len4 (fs : FS) (year day : Int)
    (q : FilePath) (s : String) (hq : q.length = 4)
    (h : fs.read q = some s) :
    (scaffold_writes fs year day).read q = some s := by
  have htest : q ≠ testFilePath (some year) day := by
    apply ne_of_length_ne
    rw [hq]
    show (4 : Nat) ≠ 3
    decide
  have hsol : q ≠ solutionFilePath (some year) day := by
    apply ne_of_length_ne
    rw [hq]
    show (4 : Nat) ≠ 3
    decide
  have hcft : q ≠ conftestFilePath year := by
    apply ne_of_length_ne
    rw [hq]
    show (4 : Nat) ≠ 3
    decide
  simp only [scaffold_writes]
  apply FS.read_touch_mono
  apply FS.read_touch_mono
  apply FS.read_touch_mono
  rw [FS.read_write_ne _ _ htest, FS.read_write_ne _ _ hsol]
  by_cases hc : ((fs.touch (initSolutionsFilePath year)).touch
      (initTestsFilePath year)).contains (conftestFilePath year) = true
  · rw [if_pos hc]
    exact FS.read_touch_mono _ _ _ s (fs.read_touch_mono _ _ s h)
  · rw [if_neg hc, FS.read_write_ne _ _ hcft]
    exact FS.read_touch_mono _ _ _ s (fs.read_touch_mono _ _ s h)

theorem scaffold_day_ok_state (fs : FS) (doc : List (String × Int))
    (day : Int) (download : Bool) (dl : DownloadOutcome) (fs2 : FS)
    (sp tp ep : FilePath)
    (hok : scaffold_day fs (.present doc) day download dl =
      .ok (fs2, sp, tp, ep)) :
    fs2 = scaffold_writes
      (if download then applyDownload (yearOf doc) day dl fs else fs)
      (yearOf doc) day := by
  by_cases h : fs.contains (solutionFilePath (some (yearOf doc)) day) = true
  · simp [scaffold_day, load_config, h] at hok
  · simp only [Bool.not_eq_true] at h
    simp [scaffold_day, load_config, h] at hok
    exact hok.1.symm

/-- **C9**: a successful `scaffold_day` (without download) writes the
partition's conftest only when it does not already exist, and touches the
example/input/puzzle placeholders only when absent — every pre-existing
conftest and every pre-existing example/input/puzzle file of any year
partition and any day (in particular those left by earlier scaffolds of
other days in the same partition) is left byte-for-byte unchanged. -/
theorem scaffold_preserves_existing (fs : FS) (doc : List (String × Int))
    (day : Int) (dl : DownloadOutcome) (fs2 : FS) (sp tp ep : FilePath)
    (hok : scaffold_day fs (.present doc) day false dl =
      .ok (fs2, sp, tp, ep)) :
    (∀ s, fs.read (conftestFilePath (yearOf doc)) = some s →
      fs2.read (conftestFilePath (yearOf doc)) = some s) ∧
    (fs.contains (conftestFilePath (yearOf doc)) = false →
      fs2.read (conftestFilePath (yearOf doc)) = some conftestContent) ∧
    (∀ y2 d2 s, fs.read (exampleFilePath (some y2) d2) = some s →
      fs2.read (exampleFilePath (some y2) d2) = some s) ∧
    (∀ y2 d2 s, fs.read (inputFilePath (some y2) d2) = some s →
      fs2.read (inputFilePath (some y2) d2) = some s) ∧
    (∀ y2 d2 s, fs.read (puzzleFilePath (some y2) d2) = some s →
      fs2.read (puzzleFilePath (some y2) d2) = some s) := by
  have hfs2 := scaffold_day_ok_state fs doc day false dl fs2 sp tp ep hok
  rw [if_neg Bool.false_ne_true] at hfs2
  subst hfs2
  refine ⟨fun s hs => scaffold_writes_preserves_conftest fs _ day s hs,
    fun habs => scaffold_writes_creates_conftest fs _ day habs,
    fun y2 d2 s hs => scaffold_writes_preserves_len4 fs _ day _ s ?_ hs,
    fun y2 d2 s hs => scaffold_writes_preserves_len4 fs _ day _ s ?_ hs,
    fun y2 d2 s hs => scaffold_writes_preserves_len4 fs _ day _ s ?_ hs⟩
  · simp [exampleFilePath, dataDirPath]
  · simp [inputFilePath, dataDirPath]
  · simp [puzzleFilePath, dataDirPath]

/-- Witness for C9: scaffolding day 3 of 2025 with a pre-existing
conftest preserves its bytes. -/
theorem scaffold_preserves_existing_witness :
    FS.read [(conftestFilePath 2025, "OLD")] (conftestFilePath 2025) =
      some "OLD" ∧
    FS.read
      (scaffold_writes [(conftestFilePath 2025, "OLD")]
        (yearOf [("year", 2025)]) 3)
      (conftestFilePath (yearOf [("year", 2025)])) = some "OLD" :=
  ⟨by decide,
    (scaffold_preserves_existing [(conftestFilePath 2025, "OLD")]
      [("year", 2025)] 3 (.fails id "")
      (scaffold_writes [(conftestFilePath 2025, "OLD")]
        (yearOf [("year", 2025)]) 3)
      (solutionFilePath (some (yearOf [("year", 2025)])) 3)
      (testFilePath (some (yearOf [("year", 2025)])) 3)
      (exampleFilePath (some (yearOf [("year", 2025)])) 3)
      rfl).1 "OLD" (by decide)⟩

/-! ### C10: freshly scaffolded placeholder files read as empty -/

theorem FS.contains_write_ne (fs : FS) {p q : FilePath} (s : String)
    (h : q ≠ p) : (fs.write p s).contains q = fs.contains q := by
  unfold FS.contains
  rw [fs.read_write_ne s h]

theorem input_ne_puzzle (year d1 d2 : Int) :
    inputFilePath (some year) d1 ≠ puzzleFilePath (some year) d2 :=
  path_ne_of_component 2 (by
    show (some "inputs" : Option String) ≠ some "puzzles"
    decide)

theorem input_ne_example (year d1 d2 : Int) :
    inputFilePath (some year) d1 ≠ exampleFilePath (some year) d2 :=
  path_ne_of_component 2 (by
    show (some "inputs" : Option String) ≠ some "examples"
    decide)

theorem puzzle_ne_input (year d1 d2 : Int) :
    puzzleFilePath (some year) d1 ≠ inputFilePath (some year) d2 :=
  path_ne_of_component 2 (by
    show (some "puzzles" : Option String) ≠ some "inputs"
    decide)

theorem puzzle_ne_example (year d1 d2 : Int) :
    puzzleFilePath (some year) d1 ≠ exampleFilePath (some year) d2 :=
  path_ne_of_component 2 (by
    show (some "puzzles" : Option String) ≠ some "examples"
    decide)

theorem solution_ne_test (year d1 d2 : Int) :
    solutionFilePath (some year) d1 ≠ testFilePath (some year) d2 :=
  path_ne_of_component 1 (by
    show (some "solutions" : Option String) ≠ some "tests"
    decide)

theorem dataPath_len4_input (year day : Int) :
    (inputFilePath (some year) day).length = 4 := rfl

theorem dataPath_len4_puzzle (year day : Int) :
    (puzzleFilePath (some year) day).length = 4 := rfl

/-- A four-component path's presence is unchanged by the unconditional
writes of the scaffold block (which all target three-component paths)
and by the package-marker touches. -/
theorem contains_before_touches (fs : FS) (year day : Int) (q : FilePath)
    (hq : q.length = 4) :
    ((((if ((fs.touch (initSolutionsFilePath year)).touch
            (initTestsFilePath year)).contains (conftestFilePath year) = true
        then (fs.touch (initSolutionsFilePath year)).touch
          (initTestsFilePath year)
        else ((fs.touch (initSolutionsFilePath year)).touch
          (initTestsFilePath year)).write (conftestFilePath year)
            conftestContent).write
          (solutionFilePath (some year) day) (templateFormat year day)).write
        (testFilePath (some year) day) (testFileContent year day)).contains q)
      = fs.contains q := by
  have htest : q ≠ testFilePath (some year) day :=
    ne_of_length_ne (by rw [hq]; show (4 : Nat) ≠ 3; decide)
  have hsol : q ≠ solutionFilePath (some year) day :=
    ne_of_length_ne (by rw [hq]; show (4 : Nat) ≠ 3; decide)
  have hcft : q ≠ conftestFilePath year :=
    ne_of_length_ne (by rw [hq]; show (4 : Nat) ≠ 3; decide)
  have hi1 : q ≠ initSolutionsFilePath year :=
    ne_of_length_ne (by rw [hq]; show (4 : Nat) ≠ 3; decide)
  have hi2 : q ≠ initTestsFilePath year :=
    ne_of_length_ne (by rw [hq]; show (4 : Nat) ≠ 3; decide)
  rw [FS.contains_write_ne _ _ htest, FS.contains_write_ne _ _ hsol]
  by_cases hc : ((fs.touch (initSolutionsFilePath year)).touch
      (initTestsFilePath year)).contains (conftestFilePath year) = true
  · rw [if_pos hc, FS.contains_touch_ne _ hi2, FS.contains_touch_ne _ hi1]
  · rw [if_neg hc, FS.contains_write_ne _ _ hcft,
      FS.contains_touch_ne _ hi2, FS.contains_touch_ne _ hi1]

/-- A previously absent input placeholder is created empty. -/
theorem scaffold_writes_creates_input (fs : FS) (year day : Int)
    (h : fs.contains (inputFilePath (some year) day) = false) :
    (scaffold_writes fs year day).read (inputFilePath (some year) day) =
      some "" := by
  simp only [scaffold_writes]
  rw [FS.read_touch_ne _ (input_ne_puzzle year day day)]
  apply FS.read_touch_absent
  rw [FS.contains_touch_ne _ (input_ne_example year day day)]
  rw [contains_before_touches fs year day _ (dataPath_len4_input year day)]
  exact h

/-- A previously absent puzzle placeholder is created empty. -/
theorem scaffold_writes_creates_puzzle (fs : FS) (year day : Int)
    (h : fs.contains (puzzleFilePath (some year) day) = false) :
    (scaffold_writes fs year day).read (puzzleFilePath (some year) day) =
      some "" := by
  simp only [scaffold_writes]
  apply FS.read_touch_absent
  rw [FS.contains_touch_ne _ (puzzle_ne_input year day day)]
  rw [FS.contains_touch_ne _ (puzzle_ne_example year day day)]
  rw [contains_before_touches fs year day _ (dataPath_len4_puzzle year day)]
  exact h

/-- The scaffolded solution file holds the instantiated template. -/
theorem scaffold_writes_solution_content (fs : FS) (year day : Int) :
    (scaffold_writes fs year day).read (solutionFilePath (some year) day) =
      some (templateFormat year day) := by
  simp only [scaffold_writes]
  apply FS.read_touch_mono
  apply FS.read_touch_mono
  apply FS.read_touch_mono
  rw [FS.read_write_ne _ _ (solution_ne_test year day day)]
  exact FS.read_write_self _ _ _

/-- **C10 counterexample**: scaffolding does not guarantee zero-byte
input/puzzle files — an input file that already existed with content
(for example from an earlier `download` invocation) survives a
successful scaffold unchanged and non-empty. -/
theorem scaffold_placeholder_not_always_empty :
    (scaffold_day [(inputFilePath (some 2025) 3, "DATA")]
        (.present [("year", 2025)]) 3 false (.fails id "")).toOption.map
      (fun r => r.1.read (inputFilePath (some 2025) 3)) =
      some (some "DATA") ∧
    "DATA" ≠ "" :=
  ⟨by decide, by decide⟩

/-- **C10 (amended)**: when the input and puzzle files were absent
beforehand, a successful `scaffold_day` without download leaves them in
place as zero-byte files, so a subsequent read returns the empty string
instead of raising `FileNotFoundError`, and the solve path proceeds past
the input check to call `parse_input` on the empty text. -/
theorem scaffold_enables_empty_reads (fs : FS) (doc : List (String × Int))
    (day : Int) (dl : DownloadOutcome) (fs2 : FS) (sp tp ep : FilePath)
    (ex : ExecOracle) (m : PyModule)
    (hin : fs.contains (inputFilePath (some (yearOf doc)) day) = false)
    (hpz : fs.contains (puzzleFilePath (some (yearOf doc)) day) = false)
    (hok : scaffold_day fs (.present doc) day false dl =
      .ok (fs2, sp, tp, ep))
    (hex : ex (templateFormat (yearOf doc) day) = .ok m) :
    fs2.read (inputFilePath (some (yearOf doc)) day) = some "" ∧
    fs2.read (puzzleFilePath (some (yearOf doc)) day) = some "" ∧
    read_input fs2 day (some (yearOf doc)) = .ok "" ∧
    read_puzzle fs2 day (some (yearOf doc)) = .ok "" ∧
    run_day fs2 ex day (some (yearOf doc)) =
      (match execParts m "" with
        | .error e => .errorRunning e
        | .ok (r1, r2, t1, t2) => .success r1 r2 t1 t2) := by
  have hfs2 := scaffold_day_ok_state fs doc day false dl fs2 sp tp ep hok
  rw [if_neg Bool.false_ne_true] at hfs2
  subst hfs2
  have hrin := scaffold_writes_creates_input fs (yearOf doc) day hin
  have hrpz := scaffold_writes_creates_puzzle fs (yearOf doc) day hpz
  have hri : read_input (scaffold_writes fs (yearOf doc) day) day
      (some (yearOf doc)) = .ok "" := by
    rw [read_input, hrin]
  have hrp : read_puzzle (scaffold_writes fs (yearOf doc) day) day
      (some (yearOf doc)) = .ok "" := by
    rw [read_puzzle, hrpz]
  refine ⟨hrin, hrpz, hri, hrp, ?_⟩
  rw [run_day, scaffold_writes_solution_content fs (yearOf doc) day]
  simp only [hex, hri]

/-- Witness for C10 (amended): day 5 scaffolded on an empty filesystem. -/
theorem scaffold_enables_empty_reads_witness :
    FS.contains [] (inputFilePath (some (yearOf [("year", 2025)])) 5) =
      false ∧
    FS.read (scaffold_writes [] (yearOf [("year", 2025)]) 5)
      (inputFilePath (some (yearOf [("year", 2025)])) 5) = some "" :=
  ⟨by decide,
    (scaffold_enables_empty_reads [] [("year", 2025)] 5 (.fails id "")
      (scaffold_writes [] (yearOf [("year", 2025)]) 5)
      (solutionFilePath (some (yearOf [("year", 2025)])) 5)
      (testFilePath (some (yearOf [("year", 2025)])) 5)
      (exampleFilePath (some (yearOf [("year", 2025)])) 5)
      (fun _ => .ok ⟨some (fun s => .ok s), some (fun d => .ok (d, 1)),
        some (fun d => .ok (d, 2))⟩)
      ⟨some (fun s => .ok s), some (fun d => .ok (d, 1)),
        some (fun d => .ok (d, 2))⟩
      (by decide) (by decide) rfl rfl).1⟩

end Aoc
